import Mathlib

/-!
Verification of the Ultra Mario 2D simulation core.

A shallow embedding of the gameplay-relevant parts of
`src/ultra_mario_2d_fixed.py` (the `UltraMario2D` class and the `Entity`
class), together with theorems settling the specification claims about
tile solidity, vertical collision resolution, block hits, entity contact
resolution, coin accounting, damage handling, shell stomping, level
classification, the timer-driven death sequence, and the fireball cap.

Python floats are modelled as rationals (all arithmetic appearing in the
verified code paths is exact on the binary floating-point values involved),
Python ints as `ℤ`, and Python's `int(...)` truncation as `pyInt`.
Calls to `random.random()` are modelled as explicit rational parameters.
-/

namespace UltraMario

/-- The scaled tile size: `SCALED_TILE = TILE_SIZE * SCALE = 16 * 2 = 32` pixels. -/
def SCALED_TILE : ℚ := 32

/-- The gravity constant `GRAVITY = 0.5`. -/
def GRAVITY : ℚ := 1/2

/-- The jump impulse `JUMP_FORCE = -10.0`. -/
def JUMP_FORCE : ℚ := -10

/-- The walk-speed cap `MOVE_SPEED = 4.0`. -/
def MOVE_SPEED : ℚ := 4

/-- The terminal fall speed `MAX_FALL_SPEED = 12.0`. -/
def MAX_FALL_SPEED : ℚ := 12

/-- The tile kinds of the `TileType` IntEnum (source lines 55-76). -/
inductive TileType where
  | AIR | GROUND | BRICK | QUESTION | USED
  | PIPE_TL | PIPE_TR | PIPE_BL | PIPE_BR
  | HARD | CASTLE | FLAG_POLE | FLAG_TOP | LAVA
  | BRIDGE | AXE | CLOUD | BUSH | HILL | WATER | CORAL
  deriving DecidableEq, Repr

/-- The `PowerState` IntEnum (source lines 48-52). -/
inductive PowerState where
  | SMALL | BIG | FIRE | STAR
  deriving DecidableEq, Repr

/-- The `GameState` IntEnum (source lines 38-45). -/
inductive GameState where
  | TITLE | PLAYING | PAUSED | GAME_OVER | LEVEL_COMPLETE | WORLD_INTRO | VICTORY
  deriving DecidableEq, Repr

/-- The string kind-tags used for `Entity.type` in the source. -/
inductive EntityKind where
  | goomba | koopa | bowser | mushroom | fireflower | star | coin | fireball
  deriving DecidableEq, Repr

/-- The dynamic-actor state of the `Entity` class (source lines 104-133). -/
structure Entity where
  type : EntityKind
  x : ℚ
  y : ℚ
  velX : ℚ
  velY : ℚ
  width : ℚ
  height : ℚ
  active : Bool
  dead : Bool
  stomped : Bool
  stompTimer : ℤ
  inShell : Bool
  emerging : Bool
  emergeY : ℚ
  deriving DecidableEq, Repr

/-- `Entity.__init__` (source lines 106-133): default fields followed by the
kind-specific overrides of velocity and bounding box. -/
def Entity.make (k : EntityKind) (x y : ℚ) : Entity :=
  { type := k, x := x, y := y
    velX :=
      if k = .goomba ∨ k = .koopa then -1
      else if k = .bowser then -1
      else if k = .mushroom ∨ k = .fireflower ∨ k = .star then 2
      else 0
    velY := 0
    width := if k = .bowser then SCALED_TILE * 2 else if k = .fireball then 12 else SCALED_TILE
    height := if k = .bowser then SCALED_TILE * 2 else if k = .fireball then 12 else SCALED_TILE
    active := true, dead := false, stomped := false, stompTimer := 0
    inShell := false, emerging := false, emergeY := 0 }

/-- A `Particle` record (source lines 198-206); the color payload is an RGB triple. -/
structure Particle where
  x : ℚ
  y : ℚ
  velX : ℚ
  velY : ℚ
  color : ℤ × ℤ × ℤ
  life : ℤ
  deriving DecidableEq, Repr

/-- A `FloatingText` record (source lines 214-220). -/
structure FloatingText where
  text : String
  x : ℚ
  y : ℚ
  life : ℤ
  deriving DecidableEq, Repr

/-- `BRICK_RED = (200, 76, 12)`. -/
def BRICK_RED : ℤ × ℤ × ℤ := (200, 76, 12)

/-- The fields of the `UltraMario2D` object read or written by the verified
gameplay operations (tile grid, entity list, player state and session
counters; rendering-only fields are not part of the simulation state). -/
structure GameS where
  levelWidth : ℤ
  levelHeight : ℤ
  tiles : List (List TileType)
  entities : List Entity
  particles : List Particle
  floatingTexts : List FloatingText
  playerX : ℚ
  playerY : ℚ
  playerVelX : ℚ
  playerVelY : ℚ
  playerPower : PowerState
  playerOnGround : Bool
  playerFacingRight : Bool
  invincibilityFrames : ℤ
  starTimer : ℤ
  playerDead : Bool
  deathTimer : ℤ
  coins : ℤ
  lives : ℤ
  score : ℤ
  timeRemaining : ℤ
  currentWorld : ℤ
  currentLevel : ℤ
  isUnderground : Bool
  isUnderwater : Bool
  isCastle : Bool
  gameState : GameState
  deriving DecidableEq, Repr

/-- Python's `int(...)` conversion on a float: truncation toward zero. -/
def pyInt (q : ℚ) : ℤ := if 0 ≤ q then ⌊q⌋ else -⌊-q⌋

/-- Python's `range(a, b)` over integers, as the list `[a, a+1, ..., b-1]`. -/
def intRange (a b : ℤ) : List ℤ := (List.range (b - a).toNat).map (fun i => a + i)

/-- The player hitbox height: `SCALED_TILE if power == SMALL else SCALED_TILE * 2`
(source lines 491, 514, 605, 629). -/
def playerHeight (p : PowerState) : ℚ :=
  if p = .SMALL then SCALED_TILE else SCALED_TILE * 2

/-- Row-major tile access `self.current_tiles[ty][tx]`; all call sites in the
source bounds-check first, so the out-of-range default is never observed. -/
def tileAt (s : GameS) (tx ty : ℤ) : TileType :=
  (s.tiles.getD ty.toNat []).getD tx.toNat .AIR

/-- In-place tile mutation `self.current_tiles[ty][tx] = t`. -/
def setTile (s : GameS) (tx ty : ℤ) (t : TileType) : GameS :=
  { s with tiles := s.tiles.set ty.toNat ((s.tiles.getD ty.toNat []).set tx.toNat t) }

/-- Grid well-formedness: the tile matrix really has `level_height` rows of
`level_width` columns each (the invariant `load_level` establishes). -/
def GridWF (s : GameS) : Prop :=
  s.tiles.length = s.levelHeight.toNat ∧ ∀ r ∈ s.tiles, r.length = s.levelWidth.toNat

/-- Membership in the solid tile-kind list of `is_solid_tile` (source lines 1078-1081). -/
def solidKind (t : TileType) : Bool :=
  t = .GROUND ∨ t = .BRICK ∨ t = .QUESTION ∨ t = .USED ∨ t = .HARD ∨
    t = .PIPE_TL ∨ t = .PIPE_TR ∨ t = .PIPE_BL ∨ t = .PIPE_BR ∨
    t = .BRIDGE ∨ t = .CASTLE

/-- `UltraMario2D.is_solid_tile` (source lines 1072-1081). -/
def isSolidTile (s : GameS) (tx ty : ℤ) : Bool :=
  if tx < 0 ∨ s.levelWidth ≤ tx ∨ ty < 0 ∨ s.levelHeight ≤ ty then false
  else solidKind (tileAt s tx ty)

/-- `UltraMario2D.spawn_coin` (source lines 558-562): a coin entity with an
initial upward velocity of `-10`, appended to the entity list. -/
def spawnCoin (s : GameS) (x y : ℚ) : GameS :=
  let c := Entity.make .coin (x + 16 - 6) y
  { s with entities := s.entities ++ [{ c with velY := -10 }] }

/-- `UltraMario2D.spawn_powerup` (source lines 564-576); `r` models the
`random.random()` draw that picks star vs. fireflower when not Small. -/
def spawnPowerup (s : GameS) (x y : ℚ) (r : ℚ) : GameS :=
  let k : EntityKind :=
    if s.playerPower = .SMALL then .mushroom
    else if r < 33/100 then .star
    else .fireflower
  let p := Entity.make k x (y + SCALED_TILE)
  { s with entities := s.entities ++ [{ p with emerging := true, emergeY := y }] }

/-- `UltraMario2D.create_brick_particles` (source lines 578-585). -/
def createBrickParticles (s : GameS) (x y : ℚ) : GameS :=
  { s with particles := s.particles ++ (List.range 4).map (fun i =>
      { x := x + (i % 2 : ℕ) * 16, y := y + (i / 2 : ℕ) * 16
        velX := if i % 2 = 0 then -3 else 3
        velY := if i < 2 then -8 else -5
        color := BRICK_RED, life := 60 }) }

/-- `UltraMario2D.hit_block` (source lines 539-556); `r1` models the
`random.random()` draw deciding coin vs. power-up, `r2` the draw inside
`spawn_powerup`. -/
def hitBlock (s : GameS) (r1 r2 : ℚ) (tx ty : ℤ) : GameS :=
  if tx < 0 ∨ s.levelWidth ≤ tx ∨ ty < 0 ∨ s.levelHeight ≤ ty then s
  else if tileAt s tx ty = .QUESTION then
    let s1 := setTile s tx ty .USED
    let s2 :=
      if r1 < 1/4 ∧ s1.playerPower = .SMALL then
        spawnPowerup s1 (tx * SCALED_TILE) (ty * SCALED_TILE - SCALED_TILE) r2
      else
        spawnCoin s1 (tx * SCALED_TILE) (ty * SCALED_TILE - SCALED_TILE)
    { s2 with score := s2.score + 100 }
  else if tileAt s tx ty = .BRICK ∧ s.playerPower ≠ .SMALL then
    let s1 := setTile s tx ty .AIR
    let s2 := createBrickParticles s1 (tx * SCALED_TILE) (ty * SCALED_TILE)
    { s2 with score := s2.score + 50 }
  else s

/-- The tile-column scan range of `handle_vertical_collision` (source lines
518-519, 523, 532): `range(start_tile_x, min(end_tile_x + 1, level_width))`
with `start_tile_x = int((player_x + 2) / SCALED_TILE)` and
`end_tile_x = int((player_x + player_width - 2) / SCALED_TILE)`,
`player_width = SCALED_TILE - 4`. -/
def vScanRange (s : GameS) : List ℤ :=
  intRange (pyInt ((s.playerX + 2) / SCALED_TILE))
    (min (pyInt ((s.playerX + (SCALED_TILE - 4) - 2) / SCALED_TILE) + 1) s.levelWidth)

/-- The landing row probed while falling (source line 522):
`int((player_y + player_height) / SCALED_TILE)`. -/
def fallLandingRow (s : GameS) : ℤ :=
  pyInt ((s.playerY + playerHeight s.playerPower) / SCALED_TILE)

/-- `UltraMario2D.handle_vertical_collision` (source lines 511-537).
`r1 r2` are the `random.random()` draws consumed by `hit_block` when a tile
is struck from below. The source clears `player_on_ground` first and sets it
back to `True` in the landing branch; here each branch records the final
value directly. -/
def handleVerticalCollision (s : GameS) (r1 r2 : ℚ) : GameS :=
  if 0 < s.playerVelY then
    if (vScanRange s).any (fun tx => isSolidTile s tx (fallLandingRow s)) then
      { s with playerOnGround := true
               playerY := fallLandingRow s * SCALED_TILE - playerHeight s.playerPower
               playerVelY := 0 }
    else { s with playerOnGround := false }
  else if s.playerVelY < 0 then
    match (vScanRange s).find? (fun tx => isSolidTile s tx (pyInt (s.playerY / SCALED_TILE))) with
    | some tx =>
        hitBlock
          { s with playerOnGround := false
                   playerY := (pyInt (s.playerY / SCALED_TILE) + 1) * SCALED_TILE
                   playerVelY := 0 }
          r1 r2 tx (pyInt (s.playerY / SCALED_TILE))
    | none => { s with playerOnGround := false }
  else { s with playerOnGround := false }

/-- `UltraMario2D.kill_player` (source lines 699-704). -/
def killPlayerG (s : GameS) : GameS :=
  { s with playerDead := true, playerVelY := -8, playerVelX := 0, deathTimer := 0 }

/-- `UltraMario2D.damage_player` (source lines 688-697). -/
def damagePlayer (s : GameS) : GameS :=
  if 0 < s.invincibilityFrames ∨ 0 < s.starTimer then s
  else if s.playerPower = .SMALL then killPlayerG s
  else { s with playerPower := .SMALL, invincibilityFrames := 120 }

/-- `UltraMario2D.collect_coin` (source lines 714-721). -/
def collectCoin (s : GameS) : GameS :=
  let s1 := { s with coins := s.coins + 1, score := s.score + 200 }
  if 100 ≤ s1.coins then
    { s1 with coins := 0, lives := s1.lives + 1
              floatingTexts := s1.floatingTexts ++
                [{ text := "1UP!", x := s1.playerX, y := s1.playerY - 30, life := 60 }] }
  else s1

/-- `UltraMario2D.stomp_enemy` (source lines 655-673): returns the updated
game state and the updated entity (the source mutates both in place). -/
def stompEnemy (s : GameS) (e : Entity) : GameS × Entity :=
  if e.type = .goomba then
    ({ s with score := s.score + 100
              floatingTexts := s.floatingTexts ++
                [{ text := "+100", x := e.x, y := e.y, life := 60 }]
              playerVelY := -6 },
     { e with stomped := true, stompTimer := 30, active := false })
  else if e.type = .koopa then
    if e.inShell then
      ({ s with score := s.score + 100
                floatingTexts := s.floatingTexts ++
                  [{ text := "+100", x := e.x, y := e.y, life := 60 }]
                playerVelY := -6 },
       { e with velX := if s.playerFacingRight then 8 else -8 })
    else
      ({ s with score := s.score + 100
                floatingTexts := s.floatingTexts ++
                  [{ text := "+100", x := e.x, y := e.y, life := 60 }]
                playerVelY := -6 },
       { e with inShell := true, velX := 0 })
  else
    ({ s with playerVelY := -6 }, e)

/-- The five resolution branches of `handle_entity_collision`. -/
inductive ContactAction where
  | pickup | coinCollect | starKill | stomp | damage
  deriving DecidableEq, Repr

/-- The branch selector of `UltraMario2D.handle_entity_collision` (source
lines 612-633): which of `collect_powerup` / `collect_coin` / `kill_enemy` /
`stomp_enemy` / `damage_player` the contact resolves to. -/
def contactAction (s : GameS) (e : Entity) : ContactAction :=
  if e.type = .mushroom ∨ e.type = .fireflower ∨ e.type = .star then .pickup
  else if e.type = .coin then .coinCollect
  else if 0 < s.starTimer then .starKill
  else if 0 < s.playerVelY ∧
          s.playerY + playerHeight s.playerPower - 10 < e.y + e.height / 2 then .stomp
  else .damage

/-- `UltraMario2D.shoot_fireball` (source lines 1690-1702). -/
def shootFireball (s : GameS) : GameS :=
  if 2 ≤ (s.entities.filter (fun e => decide (e.type = .fireball))).length then s
  else
    let fb := Entity.make .fireball
      (s.playerX + (if s.playerFacingRight then SCALED_TILE else -8))
      (s.playerY + 16)
    { s with entities := s.entities ++
        [{ fb with velX := if s.playerFacingRight then 8 else -8, velY := 0 }] }

/-- The number of live fireball entities, as counted by `shoot_fireball`. -/
def fireballCount (s : GameS) : ℕ :=
  (s.entities.filter (fun e => decide (e.type = .fireball))).length

/-- The level themes a `(world, level)` pair classifies to. -/
inductive LevelTheme where
  | overworld | underground | castle | underwater
  deriving DecidableEq, Repr

/-- The `is_underground` flag set by `load_level` (source line 805). -/
def isUndergroundLevel (world level : ℤ) : Bool :=
  decide (level = 2 ∧ (world = 1 ∨ world = 4))

/-- The `is_castle` flag set by `load_level` (source line 806); it reads
only the level index. -/
def isCastleLevel (_world level : ℤ) : Bool :=
  decide (level = 4)

/-- The `is_underwater` flag set by `load_level` (source line 807). -/
def isUnderwaterLevel (world level : ℤ) : Bool :=
  decide ((world = 2 ∧ level = 2) ∨ (world = 7 ∧ level = 2))

/-- The theme whose generation routine `generate_level` dispatches to
(source lines 855-862): `if is_castle elif is_underground elif is_underwater
else overworld` — by construction exactly one routine runs. -/
def codeLevelTheme (world level : ℤ) : LevelTheme :=
  if isCastleLevel world level then .castle
  else if isUndergroundLevel world level then .underground
  else if isUnderwaterLevel world level then .underwater
  else .overworld

/-- The classification rule exactly as the spec states it: level 4 ⇒ Castle;
level 2 of world 1 or 4 ⇒ Underground; level 2 of world 2 or 7 ⇒ Underwater;
else Overworld. -/
def specLevelTheme (world level : ℤ) : LevelTheme :=
  if level = 4 then .castle
  else if level = 2 ∧ (world = 1 ∨ world = 4) then .underground
  else if level = 2 ∧ (world = 2 ∨ world = 7) then .underwater
  else .overworld

/-!
The timer/death slice of `update_game`.

`SessionS` is the projection of the game object onto the fields the
timer-death claim speaks about (`player_dead`, `death_timer`,
`time_remaining`, `lives`, `game_state`) together with the fields needed to
track every write to those: `coins` (feeding the 100-coin life bonus of
`collect_coin`) and `current_world` / `current_level` (feeding
`advance_level`).  The writes to these fields inside the `update_game`
subtree are exactly: the dead-branch countdown and `lose_life` (lines
348-354, with an early return, so nothing else runs on a dead tick); the
wall-clock countdown and its `kill_player` (lines 356-362, with no early
return after the kill); `kill_player` from the fall death in
`update_player` (lines 485-486); `collect_coin` reached from
`update_entities` — rising coins (`Entity.update` lines 159-164, not gated
on `player_dead`) and touched coins while alive — and `kill_player` via
`damage_player` at Small power from collisions, which are checked only
while `not player_dead` (line 598); and the level-complete walk-off calling
`advance_level` → `load_level` (lines 411-418), which clears the death flag
and resets the countdown without losing a life.  Writes to fields outside
the slice (positions, velocities, score, invincibility, animation, camera,
flag state, the grid and the entity list) are dropped by the projection;
whether each input-dependent event fires in a tick is an explicit input
(`TickIn`). -/

/-- Projection of the game object onto the timer-death fields and the
session counters feeding them. -/
structure SessionS where
  playerDead : Bool
  deathTimer : ℤ
  timeRemaining : ℤ
  coins : ℤ
  lives : ℤ
  currentWorld : ℤ
  currentLevel : ℤ
  gameState : GameState
  deriving DecidableEq, Repr

/-- `kill_player` on the slice (source lines 699-704); the velocity writes
fall outside the slice. -/
def sKillPlayer (s : SessionS) : SessionS :=
  { s with playerDead := true, deathTimer := 0 }

/-- `load_level`'s writes to the slice fields (source lines 799-844): the
death flag is cleared and the countdown reset to 400.  `coins`, `lives` and
`death_timer` are not written; position, velocity, invincibility, camera,
grid and entity resets fall outside the slice, and the world/level
arguments equal the current indices at every call site. -/
def sLoadLevel (s : SessionS) : SessionS :=
  { s with playerDead := false, timeRemaining := 400 }

/-- `lose_life` on the slice (source lines 706-712). -/
def sLoseLife (s : SessionS) : SessionS :=
  let s1 := { s with lives := s.lives - 1 }
  if s1.lives ≤ 0 then { s1 with gameState := .GAME_OVER } else sLoadLevel s1

/-- `collect_coin` on the slice (source lines 714-721); the score and the
floating text fall outside the slice. -/
def sCollectCoin (s : SessionS) : SessionS :=
  let s1 := { s with coins := s.coins + 1 }
  if 100 ≤ s1.coins then { s1 with coins := 0, lives := s1.lives + 1 } else s1

/-- A number of successive `collect_coin` calls. -/
def applyCoins : ℕ → SessionS → SessionS
  | 0, s => s
  | n + 1, s => applyCoins n (sCollectCoin s)

/-- `advance_level` on the slice (source lines 781-797): the level index
wraps 1..4 into a world increment; world > 8 enters Victory without
reloading; otherwise the world-intro state is entered and the level
reloaded.  The time bonus goes to `score`, outside the slice. -/
def sAdvanceLevel (s : SessionS) : SessionS :=
  let lvl := s.currentLevel + 1
  if 4 < lvl then
    let w := s.currentWorld + 1
    if 8 < w then
      { s with currentLevel := 1, currentWorld := w, gameState := .VICTORY }
    else
      sLoadLevel { s with currentLevel := 1, currentWorld := w, gameState := .WORLD_INTRO }
  else
    sLoadLevel { s with currentLevel := lvl, gameState := .WORLD_INTRO }

/-- The input-dependent events of one Playing-state `update_game` tick, in
program order: the once-per-second wall-clock sample (line 358), the fall
death in `update_player` (line 486), the number of `collect_coin` calls
during `update_entities`, a hostile collision resolving to `kill_player`
at Small power, and the level-complete walk-off reaching `advance_level`
(line 418). -/
structure TickIn where
  secondElapsed : Bool
  fallKill : Bool
  coinCollects : ℕ
  collisionKill : Bool
  levelAdvance : Bool
  deriving DecidableEq, Repr

/-- The entity phase of a tick (`update_entities`, source lines 587-600) on
the slice: the tick's `collect_coin` calls, then a possible collision kill,
applied only while `not player_dead` (line 598).  In the source a collision
kill may interleave with later coin collections, but `collect_coin` writes
only `coins`/`lives` and `kill_player` writes only the death fields while
reading neither, so every interleaving equals this normal form on the
slice. -/
def sEntityPhase (s : SessionS) (ev : TickIn) : SessionS :=
  let s3 := applyCoins ev.coinCollects s
  if s3.playerDead = false ∧ ev.collisionKill then sKillPlayer s3 else s3

/-- One `update_game` tick on the slice (source lines 346-418).  On a dead
tick only the death countdown advances and `lose_life` fires once it passes
180 (the method returns at line 354).  On a live tick, in program order:
the wall-clock countdown with its timer kill (lines 356-362 — no early
return, so the rest of the tick still runs), the player update with a
possible fall-death kill, the entity phase, and the level-complete walk-off
which may call `advance_level`.  Stages writing no slice field (animation,
invincibility decrements, particles, texts, camera, flag trigger and
descent) are dropped by the projection. -/
def sTick (s : SessionS) (ev : TickIn) : SessionS :=
  if s.playerDead then
    let s1 := { s with deathTimer := s.deathTimer + 1 }
    if 180 < s1.deathTimer then sLoseLife s1 else s1
  else
    let s1 :=
      if ev.secondElapsed then
        let s2 := { s with timeRemaining := s.timeRemaining - 1 }
        if s2.timeRemaining ≤ 0 then sKillPlayer s2 else s2
      else s
    let s2 := if ev.fallKill then sKillPlayer s1 else s1
    let s3 := sEntityPhase s2 ev
    if ev.levelAdvance then sAdvanceLevel s3 else s3

/-- Iterated ticks: `iterTicks ins s n` is the state after `n` ticks, where
`ins i` gives the events of tick `i`. -/
def iterTicks (ins : ℕ → TickIn) (s : SessionS) : ℕ → SessionS
  | 0 => s
  | n + 1 => sTick (iterTicks ins s n) (ins n)

/-!
The entity-list transition system.

Every statement in the source that modifies `self.entities`:
appends in `spawn_coin`, `spawn_powerup`, `populate_enemies` (goomba /
koopa / bowser) and `shoot_fireball`; `self.entities.remove(entity)` in
`update_entities`; `self.entities.clear()` in `load_level`.  All other
methods leave the entity list unchanged. -/

/-- One entity-list-relevant step of the program. -/
inductive EntityStep : GameS → GameS → Prop where
  | coin (s : GameS) (x y : ℚ) : EntityStep s (spawnCoin s x y)
  | powerup (s : GameS) (x y r : ℚ) : EntityStep s (spawnPowerup s x y r)
  | enemy (s : GameS) (e : Entity)
      (hk : e.type = .goomba ∨ e.type = .koopa ∨ e.type = .bowser) :
      EntityStep s { s with entities := s.entities ++ [e] }
  | fireball (s : GameS) : EntityStep s (shootFireball s)
  | remove (s : GameS) (e : Entity) :
      EntityStep s { s with entities := s.entities.erase e }
  | clear (s : GameS) : EntityStep s { s with entities := [] }
  | quiet (s s' : GameS) (h : s'.entities = s.entities) : EntityStep s s'

/-- Reachability: finitely many entity-list steps. -/
def ReachableFrom (s0 s : GameS) : Prop := Relation.ReflTransGen EntityStep s0 s

/-! Concrete states used to instantiate the theorems. -/

/-- A small concrete game state: a 2×2 level whose bottom row is ground,
with the player one falling step above it. -/
def baseState : GameS :=
  { levelWidth := 2, levelHeight := 2
    tiles := [[.AIR, .AIR], [.GROUND, .GROUND]]
    entities := [], particles := [], floatingTexts := []
    playerX := 0, playerY := 10, playerVelX := 0, playerVelY := 1
    playerPower := .SMALL, playerOnGround := false, playerFacingRight := true
    invincibilityFrames := 0, starTimer := 0, playerDead := false, deathTimer := 0
    coins := 0, lives := 3, score := 0, timeRemaining := 400
    currentWorld := 1, currentLevel := 1
    isUnderground := false, isUnderwater := false, isCastle := false
    gameState := .PLAYING }

/-! Theorems settling the claims. -/

/-- C2: For every pair of integers `(tx, ty)` with `tx < 0` or
`tx ≥ level_width` or `ty < 0` or `ty ≥ level_height`, the solidity query
`is_solid_tile(tx, ty)` returns false (and, being total, never raises),
for every tile-grid state. -/
theorem C2_out_of_range_not_solid (s : GameS) (tx ty : ℤ)
    (h : tx < 0 ∨ s.levelWidth ≤ tx ∨ ty < 0 ∨ s.levelHeight ≤ ty) :
    isSolidTile s tx ty = false := by
  unfold isSolidTile
  rw [if_pos h]

theorem C2_witness : isSolidTile baseState (-1) 0 = false :=
  C2_out_of_range_not_solid baseState (-1) 0 (Or.inl (by decide))

/-- C5: Collecting a coin when the count is 99 wraps it to 0 and grants
exactly one life; collecting below 99 increments the count by one and leaves
lives unchanged; consequently the coin count stays in `[0, 100)`. -/
theorem C5_coin_wrap (s : GameS) (h0 : 0 ≤ s.coins) (h99 : s.coins ≤ 99) :
    (s.coins = 99 →
      (collectCoin s).coins = 0 ∧ (collectCoin s).lives = s.lives + 1) ∧
    (s.coins < 99 →
      (collectCoin s).coins = s.coins + 1 ∧ (collectCoin s).lives = s.lives) ∧
    0 ≤ (collectCoin s).coins ∧ (collectCoin s).coins ≤ 99 := by
  have hcoins : (collectCoin s).coins = if 100 ≤ s.coins + 1 then 0 else s.coins + 1 := by
    unfold collectCoin
    by_cases h : (100 : ℤ) ≤ s.coins + 1 <;> simp [h]
  have hlives : (collectCoin s).lives = if 100 ≤ s.coins + 1 then s.lives + 1 else s.lives := by
    unfold collectCoin
    by_cases h : (100 : ℤ) ≤ s.coins + 1 <;> simp [h]
  refine ⟨fun he => ?_, fun hlt => ?_, ?_, ?_⟩
  · rw [hcoins, hlives, if_pos (by omega), if_pos (by omega)]
    exact ⟨rfl, rfl⟩
  · rw [hcoins, hlives, if_neg (by omega), if_neg (by omega)]
    exact ⟨rfl, rfl⟩
  · rw [hcoins]; split <;> omega
  · rw [hcoins]; split <;> omega

theorem C5_witness :
    (collectCoin { baseState with coins := 99 }).coins = 0 ∧
    (collectCoin { baseState with coins := 99 }).lives =
      { baseState with coins := 99 }.lives + 1 :=
  (C5_coin_wrap { baseState with coins := 99 } (by decide) (by decide)).1 rfl

/-- C6: A non-stomp hostile contact resolved by `damage_player` while the
player is above Small, not invincible and without star power downgrades the
power-tier to Small, starts the 120-frame invincibility countdown, does not
mark the player dead, and leaves the lives count unchanged. -/
theorem C6_damage_downgrade (s : GameS) (hp : s.playerPower ≠ .SMALL)
    (hi : ¬ 0 < s.invincibilityFrames) (hs : ¬ 0 < s.starTimer)
    (hd : s.playerDead = false) :
    (damagePlayer s).playerPower = .SMALL ∧
    (damagePlayer s).invincibilityFrames = 120 ∧
    0 < (damagePlayer s).invincibilityFrames ∧
    (damagePlayer s).playerDead = false ∧
    (damagePlayer s).lives = s.lives := by
  unfold damagePlayer
  rw [if_neg (by tauto), if_neg hp]
  exact ⟨rfl, rfl, by norm_num, hd, rfl⟩

theorem C6_witness :
    (damagePlayer { baseState with playerPower := .BIG }).playerPower = .SMALL ∧
    (damagePlayer { baseState with playerPower := .BIG }).invincibilityFrames = 120 :=
  ⟨(C6_damage_downgrade { baseState with playerPower := .BIG }
      (by decide) (by decide) (by decide) rfl).1,
   (C6_damage_downgrade { baseState with playerPower := .BIG }
      (by decide) (by decide) (by decide) rfl).2.1⟩

/-- C7: Stomping a koopa that is not in shell state puts it into shell
state with zero horizontal velocity; stomping one already in shell state
gives it horizontal velocity of magnitude 8 whose sign matches the player's
facing direction. -/
theorem C7_koopa_stomp (s : GameS) (e : Entity) (hk : e.type = .koopa) :
    (e.inShell = false →
      (stompEnemy s e).2.inShell = true ∧ (stompEnemy s e).2.velX = 0) ∧
    (e.inShell = true →
      (stompEnemy s e).2.velX = (if s.playerFacingRight then 8 else -8) ∧
      (stompEnemy s e).2.velX ≠ 0 ∧
      (0 < (stompEnemy s e).2.velX ↔ s.playerFacingRight = true)) := by
  have hg : ¬ e.type = .goomba := by rw [hk]; intro h; cases h
  unfold stompEnemy
  rw [if_neg hg, if_pos hk]
  constructor
  · intro h
    simp [h]
  · intro h
    rw [if_pos (by rw [h])]
    by_cases hf : s.playerFacingRight <;> simp [hf]

theorem C7_witness :
    (stompEnemy baseState
        { Entity.make .koopa 64 32 with inShell := true }).2.velX =
      (if baseState.playerFacingRight then 8 else -8) ∧
    (stompEnemy baseState
        { Entity.make .koopa 64 32 with inShell := true }).2.velX ≠ 0 :=
  ⟨((C7_koopa_stomp baseState { Entity.make .koopa 64 32 with inShell := true }
      rfl).2 rfl).1,
   ((C7_koopa_stomp baseState { Entity.make .koopa 64 32 with inShell := true }
      rfl).2 rfl).2.1⟩

/-- C8: For every world index ≥ 1 and level index in 1..4, the theme the
generation dispatch runs (exactly one branch of `generate_level`) agrees
with the spec's fixed classification rule: level 4 ⇒ Castle; level 2 of
world 1 or 4 ⇒ Underground; level 2 of world 2 or 7 ⇒ Underwater; else
Overworld. -/
theorem C8_level_classification (world level : ℤ)
    (_hw : 1 ≤ world) (_hl1 : 1 ≤ level) (_hl4 : level ≤ 4) :
    codeLevelTheme world level = specLevelTheme world level := by
  unfold codeLevelTheme specLevelTheme isCastleLevel isUndergroundLevel isUnderwaterLevel
  simp only [decide_eq_true_eq]
  split_ifs <;> first | rfl | tauto

theorem C8_witness : codeLevelTheme 1 2 = specLevelTheme 1 2 :=
  C8_level_classification 1 2 (by decide) (by decide) (by decide)

/-- C1: In a tick in which the player is falling (`player_vel_y > 0`) and
some scanned column holds a solid tile at the landing row `r`, the vertical
collision pass sets the player's vertical position to exactly
`r * SCALED_TILE - player_height` (where `player_height` is `SCALED_TILE`
for Small power and `SCALED_TILE * 2` otherwise), zeroes the vertical
velocity and sets the on-ground flag — no residual penetration or gap. -/
theorem C1_landing_alignment (s : GameS) (r1 r2 : ℚ) (hfall : 0 < s.playerVelY)
    (hsolid : ∃ tx ∈ vScanRange s, isSolidTile s tx (fallLandingRow s) = true) :
    (handleVerticalCollision s r1 r2).playerY =
      fallLandingRow s * SCALED_TILE - playerHeight s.playerPower ∧
    (handleVerticalCollision s r1 r2).playerVelY = 0 ∧
    (handleVerticalCollision s r1 r2).playerOnGround = true := by
  have hany : ((vScanRange s).any fun tx => isSolidTile s tx (fallLandingRow s)) = true := by
    obtain ⟨tx, htx, hp⟩ := hsolid
    exact List.any_eq_true.mpr ⟨tx, htx, hp⟩
  unfold handleVerticalCollision
  rw [if_pos hfall, if_pos hany]
  exact ⟨rfl, rfl, rfl⟩

theorem C1_witness :
    (handleVerticalCollision baseState 0 0).playerY =
      fallLandingRow baseState * SCALED_TILE - playerHeight baseState.playerPower ∧
    (handleVerticalCollision baseState 0 0).playerVelY = 0 ∧
    (handleVerticalCollision baseState 0 0).playerOnGround = true := by
  have hrow : fallLandingRow baseState = 1 := by
    norm_num [fallLandingRow, baseState, playerHeight, SCALED_TILE, pyInt]
  have hrange : vScanRange baseState = [0] := by
    have h1 : pyInt ((baseState.playerX + 2) / SCALED_TILE) = 0 := by
      norm_num [baseState, SCALED_TILE, pyInt]
    have h2 : pyInt ((baseState.playerX + (SCALED_TILE - 4) - 2) / SCALED_TILE) = 0 := by
      norm_num [baseState, SCALED_TILE, pyInt]
    rw [vScanRange, h1, h2]
    decide
  exact C1_landing_alignment baseState 0 0 (by norm_num [baseState])
    ⟨0, by rw [hrange]; exact List.mem_singleton.mpr rfl, by rw [hrow]; decide⟩

/-- The concrete player state of the C4 counterexample: falling (velocity 1),
Small power, vertical position 88, so the lower edge is at 120. -/
def c4State : GameS := { baseState with playerY := 88, playerVelY := 1 }

/-- The concrete hostile entity of the C4 counterexample: a goomba at
vertical position 100 with height 32, so its vertical midpoint is 116. -/
def c4Enemy : Entity := Entity.make .goomba 0 100

/-- C4 counterexample: The claimed rule "stomp iff the player is moving
down AND the player's lower edge is above the entity's vertical midpoint" is
false: here the code resolves a stomp (because of the 10-pixel tolerance on
line 630) although the player's lower edge (120) is below the entity's
vertical midpoint (116). -/
theorem C4_counterexample :
    contactAction c4State c4Enemy = .stomp ∧
    ¬ (c4State.playerY + playerHeight c4State.playerPower <
        c4Enemy.y + c4Enemy.height / 2) := by
  have hy : c4Enemy.y = (100 : ℚ) := by decide
  have hh : c4Enemy.height = (32 : ℚ) := by decide
  constructor
  · unfold contactAction
    rw [if_neg (by decide), if_neg (by decide), if_neg (by norm_num [c4State, baseState]),
        if_pos (by norm_num [c4State, baseState, playerHeight, SCALED_TILE, hy, hh])]
  · norm_num [c4State, baseState, playerHeight, SCALED_TILE, hy, hh]

/-- C4 amended: Without star power, a player-vs-hostile contact is
resolved as a stomp if and only if the player's vertical velocity is
downward (positive) AND the player's lower edge minus a 10-pixel tolerance
is above the entity's vertical midpoint
(`player_y + player_height - 10 < entity.y + entity.height / 2`); any
hostile contact not satisfying this condition damages the player. -/
theorem C4_amended_stomp_rule (s : GameS) (e : Entity)
    (hh : e.type = .goomba ∨ e.type = .koopa ∨ e.type = .bowser)
    (hs : ¬ 0 < s.starTimer) :
    (contactAction s e = .stomp ↔
      (0 < s.playerVelY ∧
        s.playerY + playerHeight s.playerPower - 10 < e.y + e.height / 2)) ∧
    (contactAction s e ≠ .stomp → contactAction s e = .damage) := by
  have h1 : ¬ (e.type = .mushroom ∨ e.type = .fireflower ∨ e.type = .star) := by
    rcases hh with h | h | h <;> rw [h] <;> rintro (h' | h' | h') <;> cases h'
  have h2 : ¬ e.type = .coin := by
    rcases hh with h | h | h <;> rw [h] <;> intro h' <;> cases h'
  unfold contactAction
  rw [if_neg h1, if_neg h2, if_neg hs]
  by_cases hc : 0 < s.playerVelY ∧
      s.playerY + playerHeight s.playerPower - 10 < e.y + e.height / 2
  · rw [if_pos hc]
    exact ⟨⟨fun _ => hc, fun _ => rfl⟩, fun h => absurd rfl h⟩
  · rw [if_neg hc]
    exact ⟨⟨fun h => ContactAction.noConfusion h, fun h => absurd h hc⟩, fun _ => rfl⟩

/-- Writing a tile in bounds is read back by `tileAt` (list set/get plumbing
for the row-major grid). -/
theorem tileAt_setTile_self (s : GameS) (tx ty : ℤ) (t : TileType)
    (hwf : GridWF s) (hx0 : 0 ≤ tx) (hxw : tx < s.levelWidth)
    (hy0 : 0 ≤ ty) (hyh : ty < s.levelHeight) :
    tileAt (setTile s tx ty t) tx ty = t := by
  obtain ⟨hlen, hrows⟩ := hwf
  have hty : ty.toNat < s.tiles.length := by rw [hlen]; omega
  have hrowget : s.tiles.getD ty.toNat [] = s.tiles[ty.toNat] := by
    rw [List.getD_eq_getElem?_getD, List.getElem?_eq_getElem hty, Option.getD_some]
  have hrowlen : (s.tiles.getD ty.toNat []).length = s.levelWidth.toNat := by
    rw [hrowget]
    exact hrows _ (List.getElem_mem hty)
  have htx : tx.toNat < (s.tiles.getD ty.toNat []).length := by rw [hrowlen]; omega
  unfold tileAt setTile
  have h1 : ((s.tiles.set ty.toNat ((s.tiles.getD ty.toNat []).set tx.toNat t)).getD
      ty.toNat []) = (s.tiles.getD ty.toNat []).set tx.toNat t := by
    rw [List.getD_eq_getElem?_getD, List.getElem?_set_self hty, Option.getD_some]
  rw [h1, List.getD_eq_getElem?_getD, List.getElem?_set_self htx, Option.getD_some]

/-- C3: Hitting an in-bounds Question tile converts it to Used and spawns
exactly one entity — a coin, or a power-up only while the player is Small —
and a second hit on the same (now Used) position is a no-op: it changes no
tile and spawns nothing. -/
theorem C3_question_block_hit (s : GameS) (r1 r2 r1' r2' : ℚ) (tx ty : ℤ)
    (hwf : GridWF s)
    (hx0 : 0 ≤ tx) (hxw : tx < s.levelWidth) (hy0 : 0 ≤ ty) (hyh : ty < s.levelHeight)
    (hq : tileAt s tx ty = .QUESTION) :
    tileAt (hitBlock s r1 r2 tx ty) tx ty = .USED ∧
    (hitBlock s r1 r2 tx ty).entities.length = s.entities.length + 1 ∧
    (∃ e, (hitBlock s r1 r2 tx ty).entities = s.entities ++ [e] ∧
      (e.type = .coin ∨ (e.type = .mushroom ∧ s.playerPower = .SMALL))) ∧
    hitBlock (hitBlock s r1 r2 tx ty) r1' r2' tx ty = hitBlock s r1 r2 tx ty := by
  have hb : ¬ (tx < 0 ∨ s.levelWidth ≤ tx ∨ ty < 0 ∨ s.levelHeight ≤ ty) := by
    rintro (h | h | h | h) <;> omega
  have hset : tileAt (setTile s tx ty .USED) tx ty = .USED :=
    tileAt_setTile_self s tx ty .USED hwf hx0 hxw hy0 hyh
  have key : (hitBlock s r1 r2 tx ty).levelWidth = s.levelWidth ∧
      (hitBlock s r1 r2 tx ty).levelHeight = s.levelHeight ∧
      tileAt (hitBlock s r1 r2 tx ty) tx ty = .USED ∧
      (∃ e, (hitBlock s r1 r2 tx ty).entities = s.entities ++ [e] ∧
        (e.type = .coin ∨ (e.type = .mushroom ∧ s.playerPower = .SMALL))) := by
    unfold hitBlock
    rw [if_neg hb, if_pos hq]
    dsimp only
    by_cases hr : r1 < 1/4 ∧ (setTile s tx ty .USED).playerPower = .SMALL
    · rw [if_pos hr]
      refine ⟨rfl, rfl, hset, ⟨_, rfl, Or.inr ⟨?_, hr.2⟩⟩⟩
      show (if (setTile s tx ty .USED).playerPower = .SMALL then EntityKind.mushroom
            else if r2 < 33/100 then .star else .fireflower) = .mushroom
      rw [if_pos hr.2]
    · rw [if_neg hr]
      exact ⟨rfl, rfl, hset, ⟨_, rfl, Or.inl rfl⟩⟩
  obtain ⟨hW, hH, hQ2, hE⟩ := key
  refine ⟨hQ2, ?_, hE, ?_⟩
  · obtain ⟨e, he, -⟩ := hE
    rw [he, List.length_append, List.length_singleton]
  · have hb2 : ¬ (tx < 0 ∨ (hitBlock s r1 r2 tx ty).levelWidth ≤ tx ∨ ty < 0 ∨
        (hitBlock s r1 r2 tx ty).levelHeight ≤ ty) := by
      rw [hW, hH]; exact hb
    have hq2 : ¬ tileAt (hitBlock s r1 r2 tx ty) tx ty = .QUESTION := by
      rw [hQ2]; decide
    have hbr : ¬ (tileAt (hitBlock s r1 r2 tx ty) tx ty = .BRICK ∧
        (hitBlock s r1 r2 tx ty).playerPower ≠ .SMALL) := by
      rw [hQ2]
      rintro ⟨h, -⟩
      cases h
    conv_lhs => rw [hitBlock.eq_def]
    rw [if_neg hb2, if_neg hq2, if_neg hbr]

/-- A concrete state with a Question tile at column 0, row 1. -/
def c3State : GameS := { baseState with tiles := [[.AIR, .AIR], [.QUESTION, .GROUND]] }

theorem C3_witness :
    tileAt (hitBlock c3State (1/2) 0 0 1) 0 1 = .USED ∧
    (hitBlock c3State (1/2) 0 0 1).entities.length = c3State.entities.length + 1 ∧
    hitBlock (hitBlock c3State (1/2) 0 0 1) (1/2) 0 0 1 =
      hitBlock c3State (1/2) 0 0 1 := by
  have hwf : GridWF c3State := by
    refine ⟨by decide, ?_⟩
    intro r hr
    have ht : c3State.tiles = [[.AIR, .AIR], [.QUESTION, .GROUND]] := rfl
    rw [ht] at hr
    fin_cases hr <;> decide
  have h := C3_question_block_hit c3State (1/2) 0 (1/2) 0 0 1 hwf
    (by decide) (by decide) (by decide) (by decide) (by decide)
  exact ⟨h.1, h.2.1, h.2.2.2⟩

theorem C4_amended_witness : contactAction c4State c4Enemy = .stomp :=
  (C4_amended_stomp_rule c4State c4Enemy (Or.inl rfl)
    (by norm_num [c4State, baseState])).1.mpr
    ⟨by norm_num [c4State, baseState],
     by
      have hy : c4Enemy.y = (100 : ℚ) := by decide
      have hh : c4Enemy.height = (32 : ℚ) := by decide
      norm_num [c4State, baseState, playerHeight, SCALED_TILE, hy, hh]⟩

/-- Appending a non-fireball entity leaves the live-fireball count unchanged. -/
theorem fireballCount_append_other (s : GameS) (e : Entity) (h : ¬ e.type = .fireball) :
    fireballCount { s with entities := s.entities ++ [e] } = fireballCount s := by
  simp [fireballCount, List.filter_append, List.filter_singleton, h]

/-- C10: Starting from an empty entity list, along every sequence of
entity-list operations of the program (spawns, enemy population, fireball
shots, removals, clears), the number of live fireball entities never
exceeds 2: `shoot_fireball` counts live fireballs and refuses to spawn when
two or more exist, and no other operation adds a fireball. -/
theorem C10_fireball_cap (s0 s : GameS) (h0 : s0.entities = [])
    (hr : ReachableFrom s0 s) : fireballCount s ≤ 2 := by
  induction hr with
  | refl => simp [fireballCount, h0]
  | tail hab step ih =>
    rename_i b c
    cases step with
    | coin x y =>
      have h : fireballCount (spawnCoin b x y) = fireballCount b :=
        fireballCount_append_other b _ (by simp [Entity.make])
      rw [h]; exact ih
    | powerup x y r =>
      have hk : (if b.playerPower = .SMALL then EntityKind.mushroom
          else if r < 33/100 then .star else .fireflower) ≠ .fireball := by
        split_ifs <;> decide
      have h : fireballCount (spawnPowerup b x y r) = fireballCount b :=
        fireballCount_append_other b _ (by simpa [Entity.make] using hk)
      rw [h]; exact ih
    | enemy e hk =>
      have he : ¬ e.type = .fireball := by
        rcases hk with h | h | h <;> rw [h] <;> decide
      rw [fireballCount_append_other b e he]; exact ih
    | fireball =>
      unfold shootFireball
      by_cases hc : 2 ≤ (b.entities.filter fun e => decide (e.type = .fireball)).length
      · rw [if_pos hc]; exact ih
      · rw [if_neg hc]
        have h : fireballCount { b with entities := b.entities ++
            [{ Entity.make .fireball
                (b.playerX + if b.playerFacingRight then SCALED_TILE else -8)
                (b.playerY + 16) with
              velX := if b.playerFacingRight then 8 else -8, velY := 0 }] } =
            fireballCount b + 1 := by
          simp [fireballCount, List.filter_append, List.filter_singleton, Entity.make]
        rw [h]
        have hle : fireballCount b ≤ 1 := by
          have he : fireballCount b =
              (b.entities.filter fun e => decide (e.type = .fireball)).length := rfl
          omega
        omega
    | remove e =>
      have h : fireballCount { b with entities := b.entities.erase e } ≤ fireballCount b := by
        have h1 := List.Sublist.countP_le (fun x => decide (x.type = .fireball))
          (List.erase_sublist e b.entities)
        rwa [List.countP_eq_length_filter, List.countP_eq_length_filter] at h1
      omega
    | clear => simp [fireballCount]
    | quiet hq =>
      rename_i hq2
      have h : fireballCount c = fireballCount b := by
        unfold fireballCount
        rw [hq2]
      rw [h]; exact ih

theorem C10_witness : fireballCount baseState ≤ 2 :=
  C10_fireball_cap baseState baseState rfl Relation.ReflTransGen.refl

/-- `lose_life` decrements the lives count by exactly one, in both the
game-over and the reload branch. -/
theorem sLoseLife_lives (t : SessionS) : (sLoseLife t).lives = t.lives - 1 := by
  unfold sLoseLife sLoadLevel
  dsimp only
  split <;> rfl

/-- `collect_coin` never writes the death flag, the death countdown or the
time countdown. -/
theorem sCollectCoin_flags (s : SessionS) :
    (sCollectCoin s).playerDead = s.playerDead ∧
    (sCollectCoin s).deathTimer = s.deathTimer ∧
    (sCollectCoin s).timeRemaining = s.timeRemaining := by
  unfold sCollectCoin
  dsimp only
  split <;> exact ⟨rfl, rfl, rfl⟩

/-- Iterated `collect_coin` calls never write the death flag, the death
countdown or the time countdown. -/
theorem applyCoins_flags (n : ℕ) (s : SessionS) :
    (applyCoins n s).playerDead = s.playerDead ∧
    (applyCoins n s).deathTimer = s.deathTimer ∧
    (applyCoins n s).timeRemaining = s.timeRemaining := by
  induction n generalizing s with
  | zero => exact ⟨rfl, rfl, rfl⟩
  | succ m ih =>
    have h1 := sCollectCoin_flags s
    have h2 := ih (sCollectCoin s)
    exact ⟨h2.1.trans h1.1, h2.2.1.trans h1.2.1, h2.2.2.trans h1.2.2⟩

/-- Once the player is dead, the entity phase cannot revive them or touch
the countdowns: collisions are gated on `not player_dead` and coin
collections write only `coins`/`lives`. -/
theorem sEntityPhase_dead (s : SessionS) (ev : TickIn) (hd : s.playerDead = true) :
    (sEntityPhase s ev).playerDead = true ∧
    (sEntityPhase s ev).deathTimer = s.deathTimer ∧
    (sEntityPhase s ev).timeRemaining = s.timeRemaining := by
  unfold sEntityPhase
  dsimp only
  have hp := applyCoins_flags ev.coinCollects s
  rw [if_neg (by rw [hp.1, hd]; rintro ⟨h, -⟩; cases h)]
  exact ⟨hp.1.trans hd, hp.2.1, hp.2.2⟩

/-- A live tick whose wall-clock second elapses with `time_remaining = 1`
and whose level-complete walk-off does not fire kills the player: whatever
else happens that tick (fall kill, coin collections, collision kills), the
tick ends dead with the death countdown at 0 and the time countdown at 0. -/
theorem sTick_timeout (s : SessionS) (ev : TickIn)
    (halive : s.playerDead = false) (ht : s.timeRemaining = 1)
    (hsec : ev.secondElapsed = true) (hadv : ev.levelAdvance = false) :
    (sTick s ev).playerDead = true ∧ (sTick s ev).deathTimer = 0 ∧
    (sTick s ev).timeRemaining = 0 := by
  unfold sTick
  rw [if_neg (by rw [halive]; exact Bool.false_ne_true), hsec, hadv]
  dsimp only
  rw [if_pos (show s.timeRemaining - 1 ≤ 0 by omega),
      if_neg (show ¬ (false : Bool) = true from Bool.false_ne_true)]
  have hk : (sKillPlayer { s with timeRemaining := s.timeRemaining - 1 }).playerDead = true ∧
      (sKillPlayer { s with timeRemaining := s.timeRemaining - 1 }).deathTimer = 0 ∧
      (sKillPlayer { s with timeRemaining := s.timeRemaining - 1 }).timeRemaining = 0 :=
    ⟨rfl, rfl, show s.timeRemaining - 1 = 0 by omega⟩
  by_cases hf : ev.fallKill = true
  · rw [hf, if_pos rfl]
    have h3 := sEntityPhase_dead
      (sKillPlayer (sKillPlayer { s with timeRemaining := s.timeRemaining - 1 })) ev rfl
    exact ⟨h3.1, h3.2.1, h3.2.2.trans hk.2.2⟩
  · rw [Bool.not_eq_true] at hf
    rw [hf, if_neg (show ¬ (false : Bool) = true from Bool.false_ne_true)]
    have h3 := sEntityPhase_dead
      (sKillPlayer { s with timeRemaining := s.timeRemaining - 1 }) ev rfl
    exact ⟨h3.1, h3.2.1.trans hk.2.1, h3.2.2.trans hk.2.2⟩

/-- While the player is dead and the countdown has not yet passed 180, a tick
only advances the countdown: the death flag, time-remaining and lives are
untouched — in particular the timer-kill logic does not run again, and the
tick's events (coins, kills, level advance) are ignored, matching the early
return at line 354. -/
theorem sTick_dead_step (s : SessionS) (ev : TickIn) (hd : s.playerDead = true)
    (hdt : s.deathTimer ≤ 179) :
    (sTick s ev).playerDead = true ∧
    (sTick s ev).deathTimer = s.deathTimer + 1 ∧
    (sTick s ev).timeRemaining = s.timeRemaining ∧
    (sTick s ev).lives = s.lives := by
  unfold sTick
  rw [if_pos hd]
  dsimp only
  rw [if_neg (show ¬ (180 : ℤ) < s.deathTimer + 1 by omega)]
  exact ⟨hd, rfl, rfl, rfl⟩

/-- C9: When the countdown reaches 0 during play (tick 0 below decrements
`time_remaining` from 1 to 0) and the level-complete walk-off does not fire
on that same tick (which would cancel the death through
`advance_level` → `load_level`), the player death is triggered exactly
once: tick 1 ends dead with the death countdown at 0 and `time_remaining`
at 0, whatever other events (fall kill, coin collections — which may still
change lives on the kill tick itself — collision kills) occur then; over
ticks 1..181 the countdown increases monotonically while the death flag
stays set, `time_remaining` stays 0 (the timer-driven kill logic never runs
again during that death) and lives are untouched; on tick 182 the fixed
countdown has elapsed and exactly one life is lost via the standard
lose-life path. -/
theorem C9_timer_death_once (s0 : SessionS) (ins : ℕ → TickIn)
    (halive : s0.playerDead = false) (ht : s0.timeRemaining = 1)
    (hsec : (ins 0).secondElapsed = true) (hadv : (ins 0).levelAdvance = false) :
    ((iterTicks ins s0 1).playerDead = true ∧
     (iterTicks ins s0 1).deathTimer = 0 ∧
     (iterTicks ins s0 1).timeRemaining = 0) ∧
    (∀ n, 1 ≤ n → n ≤ 181 →
      (iterTicks ins s0 n).playerDead = true ∧
      (iterTicks ins s0 n).deathTimer = (n : ℤ) - 1 ∧
      (iterTicks ins s0 n).timeRemaining = 0 ∧
      (iterTicks ins s0 n).lives = (iterTicks ins s0 1).lives) ∧
    (iterTicks ins s0 182).lives = (iterTicks ins s0 1).lives - 1 := by
  have h1 : (iterTicks ins s0 1).playerDead = true ∧
      (iterTicks ins s0 1).deathTimer = 0 ∧
      (iterTicks ins s0 1).timeRemaining = 0 :=
    sTick_timeout s0 (ins 0) halive ht hsec hadv
  have main : ∀ n, 1 ≤ n → n ≤ 181 →
      (iterTicks ins s0 n).playerDead = true ∧
      (iterTicks ins s0 n).deathTimer = (n : ℤ) - 1 ∧
      (iterTicks ins s0 n).timeRemaining = 0 ∧
      (iterTicks ins s0 n).lives = (iterTicks ins s0 1).lives := by
    intro n h1n
    induction n with
    | zero => omega
    | succ m ihm =>
      intro hm181
      rcases Nat.lt_or_ge 1 (m + 1) with hgt | hle
      · have hm1 : 1 ≤ m := by omega
        have ihm2 := ihm hm1 (by omega)
        have hstep := sTick_dead_step (iterTicks ins s0 m) (ins m)
          ihm2.1 (by rw [ihm2.2.1]; omega)
        refine ⟨hstep.1, ?_, ?_, ?_⟩
        · show (sTick (iterTicks ins s0 m) (ins m)).deathTimer = _
          rw [hstep.2.1, ihm2.2.1]
          push_cast
          ring
        · show (sTick (iterTicks ins s0 m) (ins m)).timeRemaining = 0
          rw [hstep.2.2.1, ihm2.2.2.1]
        · show (sTick (iterTicks ins s0 m) (ins m)).lives = _
          rw [hstep.2.2.2, ihm2.2.2.2]
      · have hm0 : m = 0 := by omega
        subst hm0
        rw [show (0 : ℕ) + 1 = 1 from rfl]
        exact ⟨h1.1, by rw [h1.2.1]; norm_num, h1.2.2, rfl⟩
  refine ⟨h1, main, ?_⟩
  have h181 := main 181 (by omega) (by omega)
  show (sTick (iterTicks ins s0 181) (ins 181)).lives = (iterTicks ins s0 1).lives - 1
  unfold sTick
  rw [if_pos h181.1]
  dsimp only
  rw [if_pos (show (180 : ℤ) < (iterTicks ins s0 181).deathTimer + 1 by
    rw [h181.2.1]; norm_num)]
  rw [sLoseLife_lives]
  dsimp only
  rw [h181.2.2.2]

/-- A concrete playing state, one second away from timing out. -/
def c9State : SessionS :=
  { playerDead := false, deathTimer := 0, timeRemaining := 1
    coins := 0, lives := 3, currentWorld := 1, currentLevel := 1
    gameState := .PLAYING }

/-- Concrete tick events: each second elapses, and no kill, coin or level
advance occurs. -/
def c9In : TickIn :=
  { secondElapsed := true, fallKill := false, coinCollects := 0
    collisionKill := false, levelAdvance := false }

theorem C9_witness :
    (iterTicks (fun _ => c9In) c9State 1).playerDead = true ∧
    (iterTicks (fun _ => c9In) c9State 182).lives =
      (iterTicks (fun _ => c9In) c9State 1).lives - 1 :=
  ⟨(C9_timer_death_once c9State (fun _ => c9In) rfl rfl rfl rfl).1.1,
   (C9_timer_death_once c9State (fun _ => c9In) rfl rfl rfl rfl).2.2⟩

end UltraMario
